import Mathlib

/-!
Shallow embedding of the message-hold subsystem of GNU Mailman
(Mailman/Handlers/Hold.py) and of the numeric tail of the topic-filter
admin-form handler (Mailman/Gui/Topics.py), together with theorems that
check the specification's claims against the embedded code.

External collaborators that the hold module only calls through an
interface (the pending store, the hold registrar, the autoresponder
policy, template rendering, text wrapping) are uninterpreted function
fields of an environment record, exactly as the module sees them.
-/

/-- ASCII lower-casing of one character, as Python str.lower acts on the
ASCII range; the header values the code compares are ASCII keywords. -/
def lowerChar (c : Char) : Char :=
  if 65 ≤ c.toNat ∧ c.toNat ≤ 90 then Char.ofNat (c.toNat + 32) else c

/-- Python str.lower on a string: character-wise ASCII lower-casing. -/
def pyLower (s : String) : String := ⟨s.data.map lowerChar⟩

/-- The slice of an email message that Hold.py reads: the headers it
fetches with msg.get (absent header = none) and the two sender views. -/
structure Msg where
  xAck : Option String
  precedence : Option String
  subject : Option String
  messageId : Option String
  headerSender : String
  envelopeSender : String
deriving DecidableEq, Repr

/-- Modelled from the spec: Mailman/Message.py (msg.get_sender) is not in
the given sources.  Per the spec, the plain msg.get_sender() call yields
the header-derived sender address. -/
def Msg.get_sender (msg : Msg) : String := msg.headerSender

/-- Modelled from the spec: the msg.get_sender(use_envelope=0) call made
by process is, in the spec's words, the fall back to the envelope
sender. -/
def Msg.get_sender_envelope (msg : Msg) : String := msg.envelopeSender

/-- Hold.ackp (Hold.py lines 131-136): 0 when the lower-cased X-Ack header
differs from "yes" while the lower-cased Precedence header is bulk, junk
or list; 1 otherwise.  Absent headers read as the empty string. -/
def ackp (msg : Msg) : Nat :=
  let ack := pyLower (msg.xAck.getD "")
  let precedence := pyLower (msg.precedence.getD "")
  if ack ≠ "yes" ∧ (precedence = "bulk" ∨ precedence = "junk" ∨ precedence = "list") then 0
  else 1

/-- A list member record as the hold module reads it. -/
structure Member where
  preferred_language : String
deriving DecidableEq, Repr

/-- The mailing-list configuration Hold.py reads (spec section 6):
addresses, language, the three toggles, the script-URL builder and the
member lookup. -/
structure MailingList where
  list_name : String
  host_name : String
  owner_address : String
  bounces_address : String
  request_address : String
  preferred_language : String
  admin_immed_notify : Bool
  respond_to_post_requests : Bool
  bounce_matching_headers : Bool
  script_url : String → String
  get_member : String → Option Member

/-- The per-message metadata keys Hold.py reads: truthiness of the two
flag keys as Bool, the optional overrides as Option. -/
structure MsgData where
  approved : Bool
  fromusenet : Bool
  sender : Option String
  lang : Option String
deriving DecidableEq, Repr

/-- The hold-reason taxonomy defined in Hold.py lines 63-122 (subclasses
of Errors.HoldMessage); MessageTooBig carries its constructor data. -/
inductive HoldExc
  | ForbiddenPoster
  | ModeratedPost
  | NonMemberPost
  | NotExplicitlyAllowed
  | TooManyRecipients
  | ImplicitDestination
  | Administrivia
  | SuspiciousHeaders
  | MessageTooBig (msgsize : Nat) (limit : Nat)
  | ModeratedNewsgroup
deriving DecidableEq, Repr

/-- Modelled from the spec: Errors.HoldMessage's reason accessor
(Errors.py is not in the given sources) returns the hold reason text; the
class strings and the MessageTooBig override are from Hold.py lines
63-122, the i18n dollar-substitution applied in place. -/
def HoldExc.reason_notice : HoldExc → String
  | .ForbiddenPoster => "Sender is explicitly forbidden"
  | .ModeratedPost => "Post to moderated list"
  | .NonMemberPost => "Post by non-member to a members-only list"
  | .NotExplicitlyAllowed => "Posting to a restricted list by sender requires approval"
  | .TooManyRecipients => "Too many recipients to the message"
  | .ImplicitDestination => "Message has implicit destination"
  | .Administrivia => "Message may contain administrivia"
  | .SuspiciousHeaders => "Message has a suspicious header"
  | .MessageTooBig msgsize limit =>
      "Message body is too big: " ++ toString msgsize ++ " bytes with a limit of\n" ++ toString limit ++ " KB"
  | .ModeratedNewsgroup => "Posting to a moderated newsgroup"

/-- Modelled from the spec: Errors.HoldMessage's rejection accessor
(Errors.py not in the given sources) returns the rejection text; class
strings and the Administrivia and MessageTooBig overrides are from
Hold.py lines 63-122, dollar-substitution applied in place (the word
help is quoted in the source text). -/
def HoldExc.rejection_notice : HoldExc → MailingList → String
  | .ForbiddenPoster, _ => "You are forbidden from posting messages to this list."
  | .ModeratedPost, _ => "Your message was deemed inappropriate by the moderator."
  | .NonMemberPost, _ => "Non-members are not allowed to post messages to this list."
  | .NotExplicitlyAllowed, _ => "This list is restricted; your message was not approved."
  | .TooManyRecipients, _ => "Please trim the recipient list; it is too long."
  | .ImplicitDestination, _ =>
      "Blind carbon copies or other implicit destinations are\nnot allowed.  Try reposting your message by explicitly including the list\naddress in the To: or Cc: fields."
  | .Administrivia, mlist =>
      "Please do *not* post administrative requests to the mailing\nlist.  If you wish to subscribe, visit " ++ mlist.script_url "listinfo" ++ " or send a message with the\nword help in it to the request address, " ++ mlist.request_address ++ ", for further\ninstructions."
  | .SuspiciousHeaders, _ => "Your message had a suspicious header."
  | .MessageTooBig _ limit, _ =>
      "Your message was too big; please trim it to less than\n" ++ toString limit ++ " KB in size."
  | .ModeratedNewsgroup, _ => "Your message was deemed inappropriate by the moderator."

/-- The parameterless hold-reason classes as values: what callers can pass
to hold_for_approval as a class rather than an instance (MessageTooBig
needs constructor data, so it is only ever passed as an instance). -/
inductive HoldExcCls
  | ForbiddenPoster
  | ModeratedPost
  | NonMemberPost
  | NotExplicitlyAllowed
  | TooManyRecipients
  | ImplicitDestination
  | Administrivia
  | SuspiciousHeaders
  | ModeratedNewsgroup
deriving DecidableEq, Repr

/-- Instantiating a parameterless hold-reason class with no arguments, as
the exc() call on Hold.py line 177 does. -/
def HoldExcCls.instantiate : HoldExcCls → HoldExc
  | .ForbiddenPoster => .ForbiddenPoster
  | .ModeratedPost => .ModeratedPost
  | .NonMemberPost => .NonMemberPost
  | .NotExplicitlyAllowed => .NotExplicitlyAllowed
  | .TooManyRecipients => .TooManyRecipients
  | .ImplicitDestination => .ImplicitDestination
  | .Administrivia => .Administrivia
  | .SuspiciousHeaders => .SuspiciousHeaders
  | .ModeratedNewsgroup => .ModeratedNewsgroup

/-- A hold reason as passed to hold_for_approval: either a class or an
already-built instance. -/
inductive ExcInput
  | asClass : HoldExcCls → ExcInput
  | asInstance : HoldExc → ExcInput
deriving DecidableEq, Repr

/-- Hold.py lines 175-177: a class argument is instantiated with no
arguments, an instance argument is kept as given. -/
def ExcInput.normalize : ExcInput → HoldExc
  | .asClass c => c.instantiate
  | .asInstance e => e

/-- HeldMessagePendable (Hold.py lines 140-142, constructed on line 213):
a pending record of kind held message carrying the held-message id. -/
structure HeldMessagePendable where
  type : String
  id : Nat
deriving DecidableEq, Repr

/-- The substitution dictionary d built in hold_for_approval (lines
197-203), with confirmurl added later (line 223) when the sender
notification fires. -/
structure HoldDict where
  listname : String
  hostname : String
  reason : String
  sender : String
  subject : String
  admindb_url : String
  confirmurl : Option String
deriving DecidableEq, Repr

/-- The sender notification (Message.UserNotification built on Hold.py
line 228) together with the substitution dictionary its body was rendered
from. -/
structure SenderNotice where
  recip : String
  sender : String
  subject : String
  text : String
  lang : String
  dict : HoldDict
deriving DecidableEq, Repr

/-- The control sub-message dmsg attached to the moderator notification
(Hold.py lines 250-261). -/
structure ControlMsg where
  subject : String
  sender : String
  from_addr : String
  date : String
  message_id : String
  text : String
deriving DecidableEq, Repr

/-- The moderator/owner notification (Hold.py lines 244-265): a multipart
message carrying the admin summary text, the original message and the
control sub-message, delivered with tomoderators set. -/
structure ModeratorNotice where
  recip : String
  sender : String
  subject : String
  lang : String
  charset : String
  text : String
  dict : HoldDict
  attachedOriginal : Msg
  control : ControlMsg
  tomoderators : Bool
deriving DecidableEq, Repr

/-- One audit log line (Hold.py lines 267-268), kept structured as the
format arguments of the log.info call. -/
structure LogEvent where
  listname : String
  sender : String
  message_id : String
  reason : String
deriving DecidableEq, Repr

/-- The external collaborators Hold.py calls, as uninterpreted functions:
the hold registrar, the pending store, the autoresponder policy, bounce
header matching, and the text helpers (Utils.py, the i18n template
renderer and email.utils are not in the given sources). -/
structure Env where
  hold_message : MailingList → Msg → MsgData → String → Nat
  pendings_add : HeldMessagePendable → String
  autorespond_to_sender : MailingList → String → String → Bool
  has_matching_bounce_header : MailingList → Msg → Bool
  wrap : String → String
  oneline : String → String → String
  getCharSet : String → String
  maketext : String → HoldDict → String → String
  formatdate : String
  make_msgid : String

/-- Everything one call of hold_for_approval does: the values it
computes, the pending records it adds, the notifications it sends, the
audit log line, and the exception it raises (the Python function never
returns normally). -/
structure HoldOutcome where
  heldId : Nat
  pendAdds : List HeldMessagePendable
  token : String
  rejection_notice : String
  senderNotice : Option SenderNotice
  moderatorNotice : Option ModeratorNotice
  logLines : List LogEvent
  raised : HoldExc
deriving DecidableEq, Repr

/-- The effective sender hold_for_approval uses (Hold.py line 179):
metadata override first, else the header-derived sender. -/
def effective_sender (msg : Msg) (msgdata : MsgData) : String :=
  msgdata.sender.getD msg.get_sender

/-- The response language (Hold.py lines 218-219): the member's preferred
language when the effective sender is a known member, else the list's
preferred language. -/
def response_lang (mlist : MailingList) (sender : String) : String :=
  match mlist.get_member sender with
  | some m => m.preferred_language
  | none => mlist.preferred_language

/-- Hold.hold_for_approval (Hold.py lines 171-271), translated line by
line; the i18n translator in the C locale returns its template with
dollar-substitution of the in-scope values, applied here in place. -/
def hold_for_approval (env : Env) (mlist : MailingList) (msg : Msg)
    (msgdata : MsgData) (excIn : ExcInput) : HoldOutcome :=
  let exc := excIn.normalize
  let listname := mlist.list_name
  let sender := msgdata.sender.getD msg.get_sender
  let charset := env.getCharSet mlist.preferred_language
  let usersubject := match msg.subject with
    | some s => env.oneline s charset
    | none => "(no subject)"
  let message_id := msg.messageId.getD "n/a"
  let owneraddr := mlist.owner_address
  let adminaddr := mlist.bounces_address
  let requestaddr := mlist.request_address
  let reason := env.wrap exc.reason_notice
  let rejection := env.wrap (exc.rejection_notice mlist)
  let id := env.hold_message mlist msg msgdata reason
  let d : HoldDict :=
    { listname := listname
      hostname := mlist.host_name
      reason := reason
      sender := sender
      subject := usersubject
      admindb_url := mlist.script_url "admindb"
      confirmurl := none }
  let fromusenet := msgdata.fromusenet
  let pendable : HeldMessagePendable := { type := "held message", id := id }
  let token := env.pendings_add pendable
  let lang := response_lang mlist sender
  let sendSender := !fromusenet && ackp msg != 0 && mlist.respond_to_post_requests
      && env.autorespond_to_sender mlist sender lang
  let d1 := if sendSender
    then { d with confirmurl := some (mlist.script_url "confirm" ++ "/" ++ token) }
    else d
  let senderNotice : Option SenderNotice :=
    if sendSender then
      let langS := msgdata.lang.getD lang
      let subjectS := "Your message to " ++ listname ++ " awaits moderator approval"
      let textS := env.maketext "postheld.txt" d1 langS
      some { recip := sender, sender := adminaddr, subject := subjectS,
             text := textS, lang := langS, dict := d1 }
    else none
  let moderatorNotice : Option ModeratorNotice :=
    if mlist.admin_immed_notify then
      let langA := mlist.preferred_language
      let charsetA := env.getCharSet langA
      let d2 := { d1 with reason := reason, subject := usersubject }
      let subjectA := listname ++ " post from " ++ sender ++ " requires approval"
      let textA := env.maketext "postauth.txt" d2 langA
      let dmsgText := "If you reply to this message, keeping the Subject: header intact, Mailman will\ndiscard the held message.  Do this if the message is spam.  If you reply to\nthis message and include an Approved: header with the list password in it, the\nmessage will be approved for posting to the list.  The Approved: header can\nalso appear in the first line of the body of the reply."
      let dmsg : ControlMsg :=
        { subject := "confirm " ++ token
          sender := requestaddr
          from_addr := requestaddr
          date := env.formatdate
          message_id := env.make_msgid
          text := env.wrap dmsgText }
      some { recip := owneraddr, sender := owneraddr, subject := subjectA,
             lang := langA, charset := charsetA, text := textA, dict := d2,
             attachedOriginal := msg, control := dmsg, tomoderators := true }
    else none
  { heldId := id
    pendAdds := [pendable]
    token := token
    rejection_notice := rejection
    senderNotice := senderNotice
    moderatorNotice := moderatorNotice
    logLines := [{ listname := listname, sender := sender,
                   message_id := message_id, reason := reason }]
    raised := exc }

/-- Result of process: it either returns normally (passed) or raises out
of hold_for_approval, carrying that call's effects (held). -/
inductive ProcessResult
  | passed
  | held (outcome : HoldOutcome)
deriving DecidableEq, Repr

/-- The local sender variable process computes (Hold.py lines 150-158),
envelope fall back included; the module never reads it afterwards. -/
def process_local_sender (mlist : MailingList) (msg : Msg) : String :=
  let listname := mlist.list_name
  let adminaddr := listname ++ "-admin"
  let sender0 := msg.get_sender
  if sender0 = "" ∨ sender0.take (listname.length + 6) = adminaddr
  then msg.get_sender_envelope
  else sender0

/-- Hold.process (Hold.py lines 146-167): the approved short-circuit, the
local sender computation, and the suspicious-header rule, the one rule
evaluator present in this module. -/
def process (env : Env) (mlist : MailingList) (msg : Msg) (msgdata : MsgData) :
    ProcessResult :=
  if msgdata.approved then .passed
  else
    let _sender := process_local_sender mlist msg
    if mlist.bounce_matching_headers && env.has_matching_bounce_header mlist msg then
      .held (hold_for_approval env mlist msg msgdata (.asClass .SuspiciousHeaders))
    else .passed

/-- Whitespace characters that the Python int() built-in strips from a
string argument. -/
def isPySpace (c : Char) : Bool :=
  c = ' ' || c = '\t' || c = '\n' || c = '\r' || c = '\x0b' || c = '\x0c'

/-- Decimal digit test for int() parsing. -/
def isDigitChar (c : Char) : Bool := 48 ≤ c.toNat && c.toNat ≤ 57

/-- Value of a run of decimal digits. -/
def digitsVal (l : List Char) : Nat :=
  l.foldl (fun acc c => acc * 10 + (c.toNat - 48)) 0

/-- Modelled from the spec: the Python int() built-in applied to a form
string (the CGI layer is outside the given sources).  It strips
surrounding whitespace, accepts an optional sign followed by at least one
decimal digit, and raises ValueError on anything else, which is none
here. -/
def parsePyInt (s : String) : Option Int :=
  let cs := ((s.data.dropWhile isPySpace).reverse.dropWhile isPySpace).reverse
  match cs with
  | [] => none
  | c :: rest =>
    let sign : Int := if c = '-' then -1 else 1
    let ds := if c = '-' ∨ c = '+' then rest else c :: rest
    if ds ≠ [] ∧ ds.all isDigitChar then some (sign * (digitsVal ds : Int))
    else none

/-- The two numeric topic attributes on the mailing list that
Topics.HandleForm assigns (Topics.py lines 133-146). -/
structure TopicsAttrs where
  topics_enabled : Int
  topics_bodylines_limit : Int
deriving DecidableEq, Repr

/-- The two numeric form fields as cgidata.getvalue sees them: an absent
key makes getvalue return the stored prior value as the default. -/
structure TopicsFormInput where
  topics_enabled : Option String
  topics_bodylines_limit : Option String
deriving DecidableEq, Repr

/-- The numeric tail of Topics.HandleForm (Topics.py lines 133-146): each
attribute is assigned int(form value); a ValueError is swallowed by a
bare pass, keeping the prior value.  When the form key is absent,
getvalue's default is the prior int and int() on an int is the
identity. -/
def Topics_HandleForm_numeric (form : TopicsFormInput) (mlist : TopicsAttrs) :
    TopicsAttrs :=
  let te := match form.topics_enabled with
    | none => mlist.topics_enabled
    | some s => (parsePyInt s).getD mlist.topics_enabled
  let tb := match form.topics_bodylines_limit with
    | none => mlist.topics_bodylines_limit
    | some s => (parsePyInt s).getD mlist.topics_bodylines_limit
  { topics_enabled := te, topics_bodylines_limit := tb }

/-- A concrete environment used to evaluate the claim theorems at sample
inputs: the store numbers held messages 7 and tokens derive from the held
id. -/
def sampleEnv : Env :=
  { hold_message := fun _ _ _ _ => 7
    pendings_add := fun p => "tok" ++ toString p.id
    autorespond_to_sender := fun _ _ _ => true
    has_matching_bounce_header := fun _ _ => true
    wrap := fun s => s
    oneline := fun s _ => s
    getCharSet := fun _ => "us-ascii"
    maketext := fun t _ l => t ++ ":" ++ l
    formatdate := "date0"
    make_msgid := "mid0" }

/-- A concrete mailing list: alice is a member preferring French, the
list prefers English, all toggles on. -/
def sampleList : MailingList :=
  { list_name := "mylist"
    host_name := "example.com"
    owner_address := "mylist-owner@example.com"
    bounces_address := "mylist-bounces@example.com"
    request_address := "mylist-request@example.com"
    preferred_language := "en"
    admin_immed_notify := true
    respond_to_post_requests := true
    bounce_matching_headers := true
    script_url := fun name => "http://example.com/" ++ name
    get_member := fun a => if a = "alice@example.com" then some ⟨"fr"⟩ else none }

/-- A concrete message from member alice with no X-Ack or Precedence
headers. -/
def sampleMsg : Msg :=
  { xAck := none
    precedence := none
    subject := some "Hello"
    messageId := some "<m1@x>"
    headerSender := "alice@example.com"
    envelopeSender := "env@example.com" }

/-- Plain metadata: nothing approved, no overrides. -/
def sampleData : MsgData :=
  { approved := false, fromusenet := false, sender := none, lang := none }

/-- A message whose header-derived sender is exactly the synthesized
mylist-admin alias while the envelope sender names the real poster. -/
def adminAliasMsg : Msg :=
  { sampleMsg with headerSender := "mylist-admin",
                   envelopeSender := "real@example.com" }

/-- A message carrying X-Ack no and a bulk Precedence. -/
def bulkNoAckMsg : Msg :=
  { sampleMsg with xAck := some "no", precedence := some "bulk" }

/-- Metadata carrying a lang override, as an earlier pipeline stage may
set. -/
def langOverrideData : MsgData :=
  { approved := false, fromusenet := false, sender := none, lang := some "de" }

theorem char_toNat_ofNat_small (n : Nat) (hn : n < 128) :
    (Char.ofNat n).toNat = n := by
  unfold Char.ofNat
  rw [dif_pos]
  · rfl
  · left
    omega

theorem lowerChar_idem (c : Char) : lowerChar (lowerChar c) = lowerChar c := by
  unfold lowerChar
  by_cases h : 65 ≤ c.toNat ∧ c.toNat ≤ 90
  · rw [if_pos h, char_toNat_ofNat_small (c.toNat + 32) (by omega), if_neg (by omega)]
  · rw [if_neg h, if_neg h]

theorem pyLower_idem (s : String) : pyLower (pyLower s) = pyLower s := by
  have h : (s.data.map lowerChar).map lowerChar = s.data.map lowerChar := by
    rw [List.map_map]
    apply List.map_congr_left
    intro a _
    exact lowerChar_idem a
  exact congrArg String.mk h

/-- C1: for every environment, list, message and metadata whose approved
key is set true, process returns normally, registering no hold and no
pending record; the environment being arbitrary, no evaluator result is
consulted. -/
theorem C1_approved_short_circuit (env : Env) (mlist : MailingList) (msg : Msg)
    (msgdata : MsgData) (h : msgdata.approved = true) :
    process env mlist msg msgdata = ProcessResult.passed := by
  simp [process, h]

/-- C1 witness: a concrete approved message passes straight through. -/
theorem C1_witness :
    (({ approved := true, fromusenet := false, sender := none, lang := none } : MsgData).approved
        = true)
    ∧ process sampleEnv sampleList sampleMsg
        { approved := true, fromusenet := false, sender := none, lang := none }
      = ProcessResult.passed :=
  ⟨rfl, C1_approved_short_circuit sampleEnv sampleList sampleMsg _ rfl⟩

/-- Helper characterization of ackp, shared by several results below. -/
theorem ackp_eq_zero_iff (msg : Msg) :
    ackp msg = 0
    ↔ ((msg.xAck.map pyLower ≠ some "yes")
        ∧ (msg.precedence.map pyLower = some "bulk"
            ∨ msg.precedence.map pyLower = some "junk"
            ∨ msg.precedence.map pyLower = some "list")) := by
  have hy : ¬ pyLower "" = "yes" := by decide
  have hb : ¬ pyLower "" = "bulk" := by decide
  have hj : ¬ pyLower "" = "junk" := by decide
  have hl : ¬ pyLower "" = "list" := by decide
  cases hx : msg.xAck <;> cases hp : msg.precedence <;>
    simp [ackp, hx, hp] <;> tauto

/-- C4: ackp returns 0 exactly when the X-Ack header is absent or its
lower-casing differs from yes, while the Precedence header is present and
lower-cases to bulk, junk or list; stated as an iff over all messages it
covers every combination the claim lists. -/
theorem C4_ackp_iff (msg : Msg) :
    ackp msg = 0
    ↔ ((msg.xAck.map pyLower ≠ some "yes")
        ∧ (msg.precedence.map pyLower = some "bulk"
            ∨ msg.precedence.map pyLower = some "junk"
            ∨ msg.precedence.map pyLower = some "list")) :=
  ackp_eq_zero_iff msg

/-- C10: ackp is invariant under lower-casing the X-Ack and Precedence
header values of the message. -/
theorem C10_ackp_lower_invariant (msg : Msg) :
    ackp { msg with xAck := msg.xAck.map pyLower,
                    precedence := msg.precedence.map pyLower } = ackp msg := by
  cases hx : msg.xAck <;> cases hp : msg.precedence <;>
    simp [ackp, hx, hp, pyLower_idem]

/-- C5 counterexample: on a message carrying X-Ack no and Precedence
bulk, ackp returns 0, not a true value, and the sender notification stays
suppressed even with every other gating condition satisfied. -/
theorem C5_counterexample :
    ackp bulkNoAckMsg = 0
    ∧ (hold_for_approval sampleEnv sampleList bulkNoAckMsg sampleData
        (ExcInput.asInstance HoldExc.ModeratedPost)).senderNotice = none := by
  constructor
  · decide
  · rfl

/-- C5 amended: an X-Ack value lower-casing to yes forces ackp true
whatever the Precedence; an X-Ack no does not override the suppression,
so with a bulk, junk or list Precedence ackp returns 0 and the sender
notification is suppressed. -/
theorem C5_amended (msg : Msg) :
    (msg.xAck.map pyLower = some "yes" → ackp msg = 1)
    ∧ (msg.xAck.map pyLower ≠ some "yes"
        → (msg.precedence.map pyLower = some "bulk"
            ∨ msg.precedence.map pyLower = some "junk"
            ∨ msg.precedence.map pyLower = some "list")
        → ackp msg = 0) := by
  constructor
  · intro hy
    cases hx : msg.xAck with
    | none => rw [hx] at hy; cases hy
    | some a =>
      rw [hx] at hy
      simp at hy
      simp [ackp, hx, hy]
  · intro hy hp
    rw [(ackp_eq_zero_iff msg).2 ⟨hy, hp⟩]

/-- C5 amended witness: X-Ack yes with bulk precedence gives 1, X-Ack no
with junk precedence gives 0. -/
theorem C5_amended_witness :
    ackp ⟨some "yes", some "bulk", none, none, "", ""⟩ = 1
    ∧ ackp ⟨some "no", some "junk", none, none, "", ""⟩ = 0 :=
  ⟨(C5_amended ⟨some "yes", some "bulk", none, none, "", ""⟩).1 (by decide),
   (C5_amended ⟨some "no", some "junk", none, none, "", ""⟩).2 (by decide) (by decide)⟩

/-- C2: in every execution of hold_for_approval the moderator
notification is sent iff admin_immed_notify is set, and the sender
notification is sent iff fromusenet is unset, ackp is true,
respond_to_post_requests is set and the autoresponder policy allows it;
quantifying over all inputs covers the 16 combinations of the four
conditions. -/
theorem C2_notification_gating (env : Env) (mlist : MailingList) (msg : Msg)
    (msgdata : MsgData) (excIn : ExcInput) :
    ((hold_for_approval env mlist msg msgdata excIn).moderatorNotice.isSome
        = mlist.admin_immed_notify)
    ∧ ((hold_for_approval env mlist msg msgdata excIn).senderNotice.isSome
        = (!msgdata.fromusenet && ackp msg != 0 && mlist.respond_to_post_requests
            && env.autorespond_to_sender mlist (effective_sender msg msgdata)
                 (response_lang mlist (effective_sender msg msgdata)))) := by
  constructor
  · cases h : mlist.admin_immed_notify <;>
      simp [hold_for_approval, h]
  · cases h : (!msgdata.fromusenet && ackp msg != 0 && mlist.respond_to_post_requests
        && env.autorespond_to_sender mlist (msgdata.sender.getD msg.get_sender)
             (response_lang mlist (msgdata.sender.getD msg.get_sender))) <;>
      simp only [hold_for_approval, effective_sender] <;> rw [h] <;> rfl

/-- C3: every execution of hold_for_approval obtains exactly one token
from the pending store: the pending records added form a one-element list
whose store token is the outcome's token, the sender notification's
confirmation URL (when that notification exists) is the confirm script
URL with that token as suffix, and the moderator control message's
subject (when that notification exists) is confirm followed by that same
token. -/
theorem C3_single_token (env : Env) (mlist : MailingList) (msg : Msg)
    (msgdata : MsgData) (excIn : ExcInput) :
    ((hold_for_approval env mlist msg msgdata excIn).pendAdds.map env.pendings_add
        = [(hold_for_approval env mlist msg msgdata excIn).token])
    ∧ ((hold_for_approval env mlist msg msgdata excIn).senderNotice.map
          (fun sn => sn.dict.confirmurl)
        = (hold_for_approval env mlist msg msgdata excIn).senderNotice.map
          (fun _ => some (mlist.script_url "confirm" ++ "/"
              ++ (hold_for_approval env mlist msg msgdata excIn).token)))
    ∧ ((hold_for_approval env mlist msg msgdata excIn).moderatorNotice.map
          (fun mn => mn.control.subject)
        = (hold_for_approval env mlist msg msgdata excIn).moderatorNotice.map
          (fun _ => "confirm " ++ (hold_for_approval env mlist msg msgdata excIn).token)) := by
  refine ⟨rfl, ?_, ?_⟩
  · cases h : (!msgdata.fromusenet && ackp msg != 0 && mlist.respond_to_post_requests
        && env.autorespond_to_sender mlist (msgdata.sender.getD msg.get_sender)
             (response_lang mlist (msgdata.sender.getD msg.get_sender))) <;>
      simp only [hold_for_approval] <;> rw [h] <;> rfl
  · cases h : mlist.admin_immed_notify <;>
      simp only [hold_for_approval] <;> rw [h] <;> rfl

/-- C7: hold_for_approval never returns normally; whatever the inputs,
its effect trace ends with exactly one audit log line carrying the list
name, the effective sender, the message id and the wrapped reason text,
and the raised exception is the normalized hold reason. -/
theorem C7_always_raises (env : Env) (mlist : MailingList) (msg : Msg)
    (msgdata : MsgData) (excIn : ExcInput) :
    ((hold_for_approval env mlist msg msgdata excIn).logLines
      = [{ listname := mlist.list_name
           sender := effective_sender msg msgdata
           message_id := msg.messageId.getD "n/a"
           reason := env.wrap excIn.normalize.reason_notice }])
    ∧ (hold_for_approval env mlist msg msgdata excIn).raised = excIn.normalize :=
  ⟨rfl, rfl⟩

/-- C6 counterexample: a hold of a message whose header-derived sender is
exactly mylist-admin, with no metadata sender override, logs and
addresses the notifications with that header-derived sender, not the
envelope sender real@example.com. -/
theorem C6_counterexample :
    ((hold_for_approval sampleEnv sampleList adminAliasMsg sampleData
        (ExcInput.asInstance HoldExc.ModeratedPost)).logLines.map LogEvent.sender
      = ["mylist-admin"])
    ∧ adminAliasMsg.envelopeSender = "real@example.com"
    ∧ ((hold_for_approval sampleEnv sampleList adminAliasMsg sampleData
        (ExcInput.asInstance HoldExc.ModeratedPost)).logLines.map LogEvent.sender
      ≠ [adminAliasMsg.envelopeSender]) := by
  refine ⟨rfl, rfl, ?_⟩
  decide

/-- C6 amended: with no metadata sender override the effective sender in
the audit log and as the sender notification's recipient is the
header-derived sender, even when that equals listname-admin; the envelope
fall back is applied only to the local sender variable inside process,
which the module never passes on to hold_for_approval. -/
theorem C6_amended (env : Env) (mlist : MailingList) (msg : Msg)
    (msgdata : MsgData) (excIn : ExcInput) (h : msgdata.sender = none) :
    ((hold_for_approval env mlist msg msgdata excIn).logLines.map LogEvent.sender
        = [msg.get_sender])
    ∧ ((hold_for_approval env mlist msg msgdata excIn).senderNotice.map
          SenderNotice.recip
        = (hold_for_approval env mlist msg msgdata excIn).senderNotice.map
          (fun _ => msg.get_sender))
    ∧ (msg.get_sender.take (mlist.list_name.length + 6) = mlist.list_name ++ "-admin"
        → process_local_sender mlist msg = msg.get_sender_envelope) := by
  refine ⟨?_, ?_, ?_⟩
  · simp only [hold_for_approval, h]
    rfl
  · cases hc : (!msgdata.fromusenet && ackp msg != 0 && mlist.respond_to_post_requests
        && env.autorespond_to_sender mlist (msgdata.sender.getD msg.get_sender)
             (response_lang mlist (msgdata.sender.getD msg.get_sender))) <;>
      simp only [hold_for_approval, h] <;> rw [h] at hc <;> rw [hc] <;> rfl
  · intro hadm
    simp [process_local_sender, hadm]

/-- C6 amended witness: the concrete mylist-admin header sender is logged
as is, and the local fall back inside process indeed picks the envelope
sender. -/
theorem C6_amended_witness :
    ((hold_for_approval sampleEnv sampleList adminAliasMsg sampleData
        (ExcInput.asInstance HoldExc.ModeratedPost)).logLines.map LogEvent.sender
      = [adminAliasMsg.get_sender])
    ∧ process_local_sender sampleList adminAliasMsg
        = adminAliasMsg.get_sender_envelope := by
  have h := C6_amended sampleEnv sampleList adminAliasMsg sampleData
      (ExcInput.asInstance HoldExc.ModeratedPost) rfl
  exact ⟨h.1, h.2.2 (by decide)⟩

/-- C8 counterexample: alice is a member preferring fr and the list
prefers en, yet a metadata lang override of de makes the sender
notification go out in de: the language is neither the member's nor the
list's preferred language. -/
theorem C8_counterexample :
    ((hold_for_approval sampleEnv sampleList sampleMsg langOverrideData
        (ExcInput.asInstance HoldExc.ModeratedPost)).senderNotice.map
          SenderNotice.lang
      = some "de")
    ∧ sampleList.get_member sampleMsg.get_sender = some { preferred_language := "fr" }
    ∧ sampleList.preferred_language = "en"
    ∧ ("de" : String) ≠ "fr" ∧ ("de" : String) ≠ "en" := by
  refine ⟨rfl, rfl, rfl, by decide, by decide⟩

/-- C8 amended: when the metadata carries no lang override, the sender
notification, if sent, is delivered in the sender's preferred language
when the effective sender is a known member, else in the list's preferred
language; a metadata lang key set by an earlier stage overrides both. -/
theorem C8_amended (env : Env) (mlist : MailingList) (msg : Msg)
    (msgdata : MsgData) (excIn : ExcInput) (h : msgdata.lang = none) :
    (hold_for_approval env mlist msg msgdata excIn).senderNotice.map SenderNotice.lang
      = (hold_for_approval env mlist msg msgdata excIn).senderNotice.map
        (fun _ => response_lang mlist (effective_sender msg msgdata)) := by
  cases hc : (!msgdata.fromusenet && ackp msg != 0 && mlist.respond_to_post_requests
      && env.autorespond_to_sender mlist (msgdata.sender.getD msg.get_sender)
           (response_lang mlist (msgdata.sender.getD msg.get_sender))) <;>
    simp only [hold_for_approval, effective_sender, h] <;> rw [hc] <;> rfl

/-- C8 amended witness: with no metadata override, member alice's
notification is rendered in her preferred fr. -/
theorem C8_amended_witness :
    (hold_for_approval sampleEnv sampleList sampleMsg sampleData
        (ExcInput.asInstance HoldExc.ModeratedPost)).senderNotice.map SenderNotice.lang
      = some "fr" := by
  rw [C8_amended sampleEnv sampleList sampleMsg sampleData
    (ExcInput.asInstance HoldExc.ModeratedPost) rfl]
  rfl

/-- C9: a topics_enabled or topics_bodylines_limit form value that int()
cannot parse (or an absent key) leaves the corresponding prior attribute
unchanged; the handler is a total function, so it returns without raising
and surfaces no error. -/
theorem C9_bad_numeric_retained (form : TopicsFormInput) (mlist : TopicsAttrs) :
    (form.topics_enabled.bind parsePyInt = none
      → (Topics_HandleForm_numeric form mlist).topics_enabled = mlist.topics_enabled)
    ∧ (form.topics_bodylines_limit.bind parsePyInt = none
      → (Topics_HandleForm_numeric form mlist).topics_bodylines_limit
          = mlist.topics_bodylines_limit) := by
  constructor
  · intro h
    cases he : form.topics_enabled with
    | none => simp [Topics_HandleForm_numeric, he]
    | some s =>
      rw [he] at h
      have h2 : parsePyInt s = none := h
      simp [Topics_HandleForm_numeric, he, h2]
  · intro h
    cases he : form.topics_bodylines_limit with
    | none => simp [Topics_HandleForm_numeric, he]
    | some s =>
      rw [he] at h
      have h2 : parsePyInt s = none := h
      simp [Topics_HandleForm_numeric, he, h2]

/-- C9 witness: the malformed values not-a-number and 12x are swallowed
and the prior values 1 and 5 are retained. -/
theorem C9_witness :
    (Topics_HandleForm_numeric ⟨some "not-a-number", some "12x"⟩ ⟨1, 5⟩).topics_enabled = 1
    ∧ (Topics_HandleForm_numeric ⟨some "not-a-number", some "12x"⟩ ⟨1, 5⟩).topics_bodylines_limit = 5 :=
  ⟨(C9_bad_numeric_retained ⟨some "not-a-number", some "12x"⟩ ⟨1, 5⟩).1 (by decide),
   (C9_bad_numeric_retained ⟨some "not-a-number", some "12x"⟩ ⟨1, 5⟩).2 (by decide)⟩
